import Mathlib

/-!
Verification of the AutoBreezeBeats core (src/main.py) against its
natural-language specification.

The file embeds the FastAPI endpoint handlers of `src/main.py` as pure
Lean functions over explicit state.  The endpoint bodies are translated
directly from the source; the collaborator modules they call
(`devices.py`, `playback.py`, `websockets.py`) are not part of the
sources at hand, so those operations are modelled from the
specification text (each such definition carries a doc comment starting
"Modelled from the spec:").  Fallibility of the underlying hardware
layer is made explicit by a Boolean `hwOk` parameter standing for the
success or failure of the hardware call.
-/

/-- A bluetooth device as kept by the device registry: identified by its
address, with a display name, a connected flag and the current-sink flag. -/
structure Device where
  address : String
  name : String
  connected : Bool
  is_sink : Bool
deriving Repr, DecidableEq

/-- Request body for POST /devices/connect and /devices/disconnect:
carries the target device address. -/
structure DeviceAction where
  address : String
deriving Repr, DecidableEq

/-- Request body for PUT /devices/set-sink: an optional device address
(`None` or empty string means "unset", per Python truthiness). -/
structure SinkAction where
  address : Option String
deriving Repr, DecidableEq

/-- Request body for POST /video: the media URL. -/
structure VideoAction where
  url : String
deriving Repr, DecidableEq

/-- Error raised by the connect endpoint, carrying the address. -/
structure ConnectError where
  address : String
deriving Repr, DecidableEq

/-- Error raised by the disconnect endpoint, carrying the address. -/
structure DisconnectError where
  address : String
deriving Repr, DecidableEq

/-- Error raised by the set-sink endpoint, carrying a reason message. -/
structure SinkError where
  reason : String
deriving Repr, DecidableEq

/-- Python truthiness of an optional string, as used by
`if address := action.address:` in `bluetooth_sink`: `None` and the
empty string are falsy, every other string is truthy. -/
def str_truthy : Option String → Bool
  | none => false
  | some s => !s.isEmpty

/-- Marks the device with the given address as the current sink and
clears the flag on every other device. -/
def mark_sink (devs : List Device) (address : String) : List Device :=
  devs.map fun d => { d with is_sink := d.address == address }

/-- Clears the current-sink flag on every device. -/
def clear_sinks (devs : List Device) : List Device :=
  devs.map fun d => { d with is_sink := false }

/-- Modelled from the spec: `DeviceManager.set_sink(address)` (its module
is not among the sources) "marks that device is-current-sink = true and
clears the flag on any other device"; returns a success Boolean and,
on failure, leaves state unchanged.  `hwOk` is the outcome of the
underlying hardware call. -/
def set_sink (hwOk : Bool) (devs : List Device) (address : String) :
    Bool × List Device :=
  if hwOk then (true, mark_sink devs address) else (false, devs)

/-- Modelled from the spec: `DeviceManager.unset_sinks()` (its module is
not among the sources) "clears the flag on all devices, returning
playback to the system default output"; returns a success Boolean and,
on failure, leaves state unchanged. -/
def unset_sinks (hwOk : Bool) (devs : List Device) : Bool × List Device :=
  if hwOk then (true, clear_sinks devs) else (false, devs)

/-- Modelled from the spec: `DeviceManager.connect_device(address)` (its
module is not among the sources) instructs the hardware layer to
connect; "on success, updates Device.connected = true"; "on failure,
leaves state unchanged". -/
def connect_device (hwOk : Bool) (devs : List Device) (address : String) :
    Bool × List Device :=
  if hwOk then
    (true, devs.map fun d =>
      if d.address == address then { d with connected := true } else d)
  else (false, devs)

/-- Modelled from the spec: `DeviceManager.disconnect_device(address)`
(its module is not among the sources): "on success sets connected =
false (and is-current-sink = false if it was the sink)"; on failure,
leaves state unchanged. -/
def disconnect_device (hwOk : Bool) (devs : List Device) (address : String) :
    Bool × List Device :=
  if hwOk then
    (true, devs.map fun d =>
      if d.address == address then
        { d with connected := false, is_sink := false }
      else d)
  else (false, devs)

/-- Embedding of the POST /devices/connect handler `bluetooth_connect`:
calls `connect_device` and, when it reports failure, raises
`ConnectError(address)`; otherwise answers `{"status": "Connected"}`.
The second component is the device-registry state after the call. -/
def bluetooth_connect (hwOk : Bool) (devs : List Device)
    (action : DeviceAction) : Except ConnectError String × List Device :=
  let r := connect_device hwOk devs action.address
  if r.1 then (.ok "Connected", r.2)
  else (.error ⟨action.address⟩, r.2)

/-- Embedding of the POST /devices/disconnect handler
`bluetooth_disconnect`: calls `disconnect_device` and, when it reports
failure, raises `DisconnectError(address)`; otherwise answers
`{"status": "Disconnected"}`. -/
def bluetooth_disconnect (hwOk : Bool) (devs : List Device)
    (action : DeviceAction) : Except DisconnectError String × List Device :=
  let r := disconnect_device hwOk devs action.address
  if r.1 then (.ok "Disconnected", r.2)
  else (.error ⟨action.address⟩, r.2)

/-- Embedding of the PUT /devices/set-sink handler `bluetooth_sink`:
`if address := action.address:` selects on Python truthiness of the
optional address; the truthy branch calls `set_sink` and the falsy
branch calls `unset_sinks`; either failure raises a `SinkError`. -/
def bluetooth_sink (hwOk : Bool) (devs : List Device)
    (action : SinkAction) : Except SinkError String × List Device :=
  if str_truthy action.address then
    let address := action.address.getD ""
    let r := set_sink hwOk devs address
    if r.1 then (.ok (address ++ " set as new sink"), r.2)
    else (.error ⟨"Could not set sink to " ++ address⟩, r.2)
  else
    let r := unset_sinks hwOk devs
    if r.1 then (.ok "default set as new sink", r.2)
    else (.error ⟨"Could not set sink to default"⟩, r.2)

/-- One observed PUT /devices/set-sink request: the outcome of the
underlying hardware call together with the request body. -/
structure SinkRequest where
  hwOk : Bool
  action : SinkAction
deriving Repr, DecidableEq

/-- The registry state after serving one set-sink request. -/
def apply_sink_request (devs : List Device) (r : SinkRequest) : List Device :=
  (bluetooth_sink r.hwOk devs r.action).2

/-- The registry state after serving a sequence of set-sink requests. -/
def apply_sink_requests (devs : List Device) (rs : List SinkRequest) :
    List Device :=
  rs.foldl apply_sink_request devs

/-- Number of devices currently flagged as the sink. -/
def sink_count (devs : List Device) : Nat :=
  devs.countP fun d => d.is_sink

/-- Status of a queued media item: queued, playing or played. -/
inductive ItemStatus where
  | queued
  | playing
  | played
deriving Repr, DecidableEq

/-- One item of the playback queue: its source URL, resolved display
title and status. -/
structure QueueItem where
  url : String
  title : String
  status : ItemStatus
deriving Repr, DecidableEq

/-- Modelled from the spec: the external media-resolution collaborator
`resolve(url)` (out of scope of the core); deterministically derives
display metadata from the URL. -/
def resolve_title (url : String) : String :=
  s!"resolved {url}"

/-- The created item's dictionary form, as returned by `to_dict` of the
playback module (not among the sources): the item's fields as key/value
pairs. -/
def QueueItem.to_dict (v : QueueItem) : List (String × String) :=
  [("url", v.url), ("title", v.title)]

/-- The playback-queue state: the ordered queue, a cursor into it
(`none` when no item is active) and the transport flag. -/
structure PlaybackState where
  queue : List QueueItem
  cursor : Option Nat
  playing : Bool
deriving Repr, DecidableEq

/-- Observable events published on the notifier bus. -/
inductive Event where
  | device_list_changed
  | sink_changed
  | queue_changed
  | playback_state_changed
  | warning : String → Event
deriving Repr, DecidableEq

/-- Modelled from the spec: `PlaybackManager.queue_video_url(url)` (its
module is not among the sources) "resolves metadata for url, appends a
new item with status = queued, and if the queue was empty, sets it to
playing and sets cursor to this item"; returns the created item. -/
def queue_video_url (st : PlaybackState) (url : String) :
    QueueItem × PlaybackState :=
  if st.queue.isEmpty then
    let item : QueueItem :=
      { url := url, title := resolve_title url, status := .playing }
    (item, { queue := st.queue ++ [item], cursor := some 0, playing := true })
  else
    let item : QueueItem :=
      { url := url, title := resolve_title url, status := .queued }
    (item, { st with queue := st.queue ++ [item] })

/-- Embedding of the POST /video handler `load_video`: queues the URL
and answers with the created item's dictionary form (`video.to_dict`). -/
def load_video (st : PlaybackState) (action : VideoAction) :
    List (String × String) × PlaybackState :=
  let r := queue_video_url st action.url
  (r.1.to_dict, r.2)

/-- Modelled from the spec: `PlaybackManager.play` (its module is not
among the sources) sets the transport flag to playing; "no-op if
already in that state or if queue is empty"; publishes
playback-state-changed only on an actual flag transition. -/
def play (st : PlaybackState) : PlaybackState × List Event :=
  if st.playing || st.queue.isEmpty then (st, [])
  else ({ st with playing := true }, [.playback_state_changed])

/-- Modelled from the spec: `PlaybackManager.pause` (its module is not
among the sources) sets the transport flag to paused; "no-op if already
in that state or if queue is empty"; publishes playback-state-changed
only on an actual flag transition. -/
def pause (st : PlaybackState) : PlaybackState × List Event :=
  if !st.playing || st.queue.isEmpty then (st, [])
  else ({ st with playing := false }, [.playback_state_changed])

/-- Modelled from the spec: `PlaybackManager.skip_next` (its module is
not among the sources) moves the cursor forward one position, clamped:
at the last item it stops playback (cursor `none`, transport paused)
rather than wrapping; publishes playback-state-changed on any move. -/
def skip_next (st : PlaybackState) : PlaybackState × List Event :=
  match st.cursor with
  | none => (st, [])
  | some i =>
    if i + 1 < st.queue.length then
      ({ st with cursor := some (i + 1) }, [.playback_state_changed])
    else
      ({ st with cursor := none, playing := false },
        [.playback_state_changed])

/-- Modelled from the spec: `PlaybackManager.skip_prev` (its module is
not among the sources) moves the cursor back one position; at the first
item it is a no-op; publishes playback-state-changed on any move. -/
def skip_prev (st : PlaybackState) : PlaybackState × List Event :=
  match st.cursor with
  | none => (st, [])
  | some i =>
    if i == 0 then (st, [])
    else ({ st with cursor := some (i - 1) }, [.playback_state_changed])

/-- Modelled from the spec: `PlaybackManager.skip_queue` (its module is
not among the sources) discards the current item and every item before
it, skipping to the start of whatever remains; if nothing remains it
behaves like reaching end-of-queue; publishes queue-changed and
playback-state-changed. -/
def skip_queue (st : PlaybackState) : PlaybackState × List Event :=
  match st.cursor with
  | none => (st, [])
  | some i =>
    let rest := st.queue.drop (i + 1)
    if rest.isEmpty then
      ({ queue := [], cursor := none, playing := false },
        [.queue_changed, .playback_state_changed])
    else
      ({ queue := rest, cursor := some 0, playing := st.playing },
        [.queue_changed, .playback_state_changed])

/-- The five command strings recognized by the websocket endpoint. -/
def recognized_commands : List String :=
  ["play", "pause", "next_chapter", "prev_chapter", "next_video"]

/-- Embedding of the body of the websocket endpoint for one inbound
message: the `match data` statement of `websocket_endpoint` dispatches
the five literal commands to the corresponding playback operations
(property-style accesses on `playback_manager`, whose effects are
modelled from the spec above), and every other message reaches the
default arm `ws_manager.warn(f"Unknown data {data}")`, which is
modelled from the spec as emitting a warning event and leaving all
state untouched. -/
def handle_message (st : PlaybackState) (data : String) :
    PlaybackState × List Event :=
  if data = "play" then play st
  else if data = "pause" then pause st
  else if data = "next_chapter" then skip_next st
  else if data = "prev_chapter" then skip_prev st
  else if data = "next_video" then skip_queue st
  else (st, [Event.warning s!"Unknown data {data}"])

/-- Embedding of the websocket read loop `async for data in
ws_manager.recieve_data(websocket)`: the inbound stream is the list of
decoded messages of the connection; each is handled in turn and the
emitted events are concatenated in order. -/
def websocket_session (st : PlaybackState) :
    List String → PlaybackState × List Event
  | [] => (st, [])
  | m :: rest =>
    let r := handle_message st m
    let s := websocket_session r.1 rest
    (s.1, r.2 ++ s.2)

/-- Modelled from the spec: the scanner state of the device manager;
`loops` counts the running background scan loops. -/
structure ScannerState where
  loops : Nat
deriving Repr, DecidableEq

/-- Modelled from the spec: `DeviceManager.start_scanning()` (its module
is not among the sources) "begins a perpetual background loop;
idempotent (calling twice must not start two concurrent loops)": it
starts one loop when none is running and otherwise changes nothing. -/
def start_scanning (s : ScannerState) : ScannerState :=
  if s.loops == 0 then { loops := 1 } else s

/-- The single module-initialization call `device_manager.start_scanning()`
in `main.py`, applied to the freshly constructed manager (no loop yet). -/
def startup_scanner : ScannerState :=
  start_scanning { loops := 0 }

/-! ### Helper lemmas -/

lemma sink_count_mark (devs : List Device) (a : String) :
    sink_count (mark_sink devs a) = devs.countP fun d => d.address == a := by
  induction devs with
  | nil => rfl
  | cons d t ih =>
    simp [mark_sink, sink_count, List.countP_cons] at ih ⊢
    omega

lemma sink_count_clear (devs : List Device) :
    sink_count (clear_sinks devs) = 0 := by
  induction devs with
  | nil => rfl
  | cons d t _ => simp [clear_sinks, sink_count, List.countP_cons]

lemma countP_addr_le_one (devs : List Device) (a : String)
    (h : (devs.map Device.address).Nodup) :
    (devs.countP fun d => d.address == a) ≤ 1 := by
  induction devs with
  | nil => simp
  | cons d t ih =>
    simp only [List.map_cons, List.nodup_cons] at h
    rw [List.countP_cons]
    by_cases hd : d.address = a
    · have hzero : (t.countP fun x => x.address == a) = 0 := by
        rw [List.countP_eq_zero]
        intro x hx
        have hmem : x.address ∈ t.map Device.address :=
          List.mem_map_of_mem Device.address hx
        simp only [beq_iff_eq]
        intro e
        apply h.1
        rw [hd]
        rwa [e] at hmem
      simp [hzero, hd]
    · simp only [beq_iff_eq, hd, if_false]
      simpa using ih h.2

lemma mark_sink_addresses (devs : List Device) (a : String) :
    (mark_sink devs a).map Device.address = devs.map Device.address := by
  induction devs with
  | nil => rfl
  | cons d t ih => simp only [mark_sink, List.map_cons] at ih ⊢; rw [ih]

lemma clear_sinks_addresses (devs : List Device) :
    (clear_sinks devs).map Device.address = devs.map Device.address := by
  induction devs with
  | nil => rfl
  | cons d t ih => simp only [clear_sinks, List.map_cons] at ih ⊢; rw [ih]

lemma bluetooth_sink_state (hw : Bool) (devs : List Device)
    (action : SinkAction) :
    (bluetooth_sink hw devs action).2 =
      if hw then
        if str_truthy action.address then
          mark_sink devs (action.address.getD "")
        else clear_sinks devs
      else devs := by
  cases hw <;> cases h : str_truthy action.address <;>
    simp [bluetooth_sink, set_sink, unset_sinks, h]

lemma apply_sink_request_addresses (devs : List Device) (r : SinkRequest) :
    (apply_sink_request devs r).map Device.address = devs.map Device.address := by
  rw [apply_sink_request, bluetooth_sink_state]
  cases r.hwOk <;> cases h : str_truthy r.action.address <;>
    simp [mark_sink_addresses, clear_sinks_addresses, h]

lemma sink_invariant_step (devs : List Device) (r : SinkRequest)
    (hnd : (devs.map Device.address).Nodup)
    (hinv : sink_count devs ≤ 1) :
    sink_count (apply_sink_request devs r) ≤ 1 := by
  rw [apply_sink_request, bluetooth_sink_state]
  cases r.hwOk with
  | false => simpa using hinv
  | true =>
    cases h : str_truthy r.action.address with
    | true =>
      simpa [sink_count_mark] using
        countP_addr_le_one devs (r.action.address.getD "") hnd
    | false => simp [sink_count_clear]

/-! ### Claim theorems -/

/-- C1: over every sequence of PUT /devices/set-sink requests (with or
without an address, succeeding or failing), at most one device carries
is-current-sink = true at every observed instant; a successful set
clears the flag on every device with a different address and a
successful unset clears it on all devices. -/
theorem sink_at_most_one (devs : List Device) (rs : List SinkRequest)
    (hnd : (devs.map Device.address).Nodup)
    (hinv : sink_count devs ≤ 1) :
    sink_count (apply_sink_requests devs rs) ≤ 1 ∧
    (∀ a, ∀ d ∈ mark_sink devs a, d.address ≠ a → d.is_sink = false) ∧
    (∀ d ∈ clear_sinks devs, d.is_sink = false) := by
  refine ⟨?_, ?_, ?_⟩
  · induction rs generalizing devs with
    | nil => exact hinv
    | cons r rest ih =>
      rw [apply_sink_requests, List.foldl_cons]
      exact ih (apply_sink_request devs r)
        (by rw [apply_sink_request_addresses]; exact hnd)
        (sink_invariant_step devs r hnd hinv)
  · intro a d hd hne
    rw [mark_sink, List.mem_map] at hd
    obtain ⟨c, _, rfl⟩ := hd
    simpa using hne
  · intro d hd
    rw [clear_sinks, List.mem_map] at hd
    obtain ⟨c, _, rfl⟩ := hd
    rfl

/-- Witness for C1 at a concrete registry and request sequence. -/
theorem sink_at_most_one_witness :
    sink_count (apply_sink_requests
      [⟨"AA:BB", "speaker", false, false⟩, ⟨"CC:DD", "tv", false, false⟩]
      [⟨true, ⟨some "AA:BB"⟩⟩, ⟨true, ⟨some "CC:DD"⟩⟩, ⟨true, ⟨none⟩⟩]) ≤ 1 :=
  (sink_at_most_one _ _ (by decide) (by decide)).1

/-- C4: POST /devices/connect answers the success status when the
underlying connect succeeds, and on failure raises `ConnectError`
carrying the requested address while the device state is unchanged. -/
theorem connect_endpoint_spec (devs : List Device) (action : DeviceAction) :
    (bluetooth_connect true devs action).1 = .ok "Connected" ∧
    bluetooth_connect false devs action = (.error ⟨action.address⟩, devs) := by
  constructor
  · simp [bluetooth_connect, connect_device]
  · simp [bluetooth_connect, connect_device]

/-- C5: POST /devices/disconnect answers the success status when the
underlying disconnect succeeds, and on failure raises `DisconnectError`
carrying the requested address (the device state is also unchanged). -/
theorem disconnect_endpoint_spec (devs : List Device) (action : DeviceAction) :
    (bluetooth_disconnect true devs action).1 = .ok "Disconnected" ∧
    bluetooth_disconnect false devs action =
      (.error ⟨action.address⟩, devs) := by
  constructor
  · simp [bluetooth_disconnect, disconnect_device]
  · simp [bluetooth_disconnect, disconnect_device]

/-- C6: PUT /devices/set-sink with a (truthy) address marks that device
as the current sink and clears every other device's flag; without an
address it clears the flag on all devices; in either branch a failing
underlying call raises a `SinkError` and leaves the state unchanged. -/
theorem sink_endpoint_spec (devs : List Device) (action : SinkAction) :
    (str_truthy action.address = true →
      bluetooth_sink true devs action =
        (.ok (action.address.getD "" ++ " set as new sink"),
          mark_sink devs (action.address.getD "")) ∧
      bluetooth_sink false devs action =
        (.error ⟨"Could not set sink to " ++ action.address.getD ""⟩,
          devs)) ∧
    (str_truthy action.address = false →
      bluetooth_sink true devs action =
        (.ok "default set as new sink", clear_sinks devs) ∧
      bluetooth_sink false devs action =
        (.error ⟨"Could not set sink to default"⟩, devs)) ∧
    (∀ a, ∀ d ∈ mark_sink devs a, d.is_sink = (d.address == a)) ∧
    (∀ d ∈ clear_sinks devs, d.is_sink = false) := by
  refine ⟨?_, ?_, ?_, ?_⟩
  · intro h
    constructor <;> simp [bluetooth_sink, set_sink, h]
  · intro h
    constructor <;> simp [bluetooth_sink, unset_sinks, h]
  · intro a d hd
    rw [mark_sink, List.mem_map] at hd
    obtain ⟨c, _, rfl⟩ := hd
    rfl
  · intro d hd
    rw [clear_sinks, List.mem_map] at hd
    obtain ⟨c, _, rfl⟩ := hd
    rfl

/-- Witness for C6: both branches at concrete inputs. -/
theorem sink_endpoint_spec_witness :
    bluetooth_sink true [] ⟨some "AA:BB"⟩ =
      (.ok "AA:BB set as new sink", ([] : List Device)) ∧
    bluetooth_sink true [] ⟨none⟩ =
      (.ok "default set as new sink", ([] : List Device)) :=
  ⟨((sink_endpoint_spec [] ⟨some "AA:BB"⟩).1 (by decide)).1,
    ((sink_endpoint_spec [] ⟨none⟩).2.1 rfl).1⟩

/-- C7: POST /video appends exactly one new item, carrying the submitted
URL, to the end of the queue and answers with that item's dictionary
form. -/
theorem video_endpoint_spec (st : PlaybackState) (action : VideoAction) :
    ∃ v : QueueItem, v.url = action.url ∧
      (load_video st action).1 = v.to_dict ∧
      (load_video st action).2.queue = st.queue ++ [v] := by
  cases h : st.queue.isEmpty with
  | true =>
    exact ⟨{ url := action.url, title := resolve_title action.url,
             status := .playing },
      rfl, by simp [load_video, queue_video_url, h],
      by simp [load_video, queue_video_url, h]⟩
  | false =>
    exact ⟨{ url := action.url, title := resolve_title action.url,
             status := .queued },
      rfl, by simp [load_video, queue_video_url, h],
      by simp [load_video, queue_video_url, h]⟩

/-- C8: `start_scanning` is idempotent (a second call changes nothing
and starts no second loop); the single initialization call of `main.py`
leaves exactly one background loop running, and any number of further
calls still leaves exactly that one loop. -/
theorem start_scanning_once :
    (∀ s, start_scanning (start_scanning s) = start_scanning s) ∧
    startup_scanner.loops = 1 ∧
    (∀ n, start_scanning^[n] startup_scanner = startup_scanner) := by
  refine ⟨?_, rfl, ?_⟩
  · intro s
    by_cases h : s.loops = 0 <;> simp [start_scanning, h]
  · intro n
    induction n with
    | zero => rfl
    | succ k ih => rw [Function.iterate_succ_apply, show
        start_scanning startup_scanner = startup_scanner from rfl, ih]

/-- C2: an inbound websocket message that is none of the five recognized
commands reaches the default arm: a warning event is emitted, the
playback state is untouched, and the rest of the connection's messages
are processed exactly as they would have been without it. -/
theorem ws_unknown_command (st : PlaybackState) (data : String)
    (rest : List String) (h : data ∉ recognized_commands) :
    handle_message st data = (st, [Event.warning s!"Unknown data {data}"]) ∧
    websocket_session st (data :: rest) =
      ((websocket_session st rest).1,
        Event.warning s!"Unknown data {data}" ::
          (websocket_session st rest).2) := by
  simp only [recognized_commands, List.mem_cons, List.mem_singleton,
    not_or] at h
  obtain ⟨h1, h2, h3, h4, h5, _⟩ := h
  have harm : handle_message st data =
      (st, [Event.warning s!"Unknown data {data}"]) := by
    simp [handle_message, h1, h2, h3, h4, h5]
  exact ⟨harm, by simp [websocket_session, harm]⟩

/-- Witness for C2: the unknown command "frobnicate" before a valid
"play" command. -/
theorem ws_unknown_command_witness :
    handle_message ⟨[], none, false⟩ "frobnicate" =
      (⟨[], none, false⟩, [Event.warning "Unknown data frobnicate"]) ∧
    websocket_session ⟨[], none, false⟩ ["frobnicate", "play"] =
      ((websocket_session ⟨[], none, false⟩ ["play"]).1,
        Event.warning "Unknown data frobnicate" ::
          (websocket_session ⟨[], none, false⟩ ["play"]).2) :=
  ws_unknown_command ⟨[], none, false⟩ "frobnicate" ["play"] (by decide)

/-- C3: each of the five recognized websocket command strings dispatches
to the corresponding playback operation. -/
theorem ws_dispatch (st : PlaybackState) :
    handle_message st "play" = play st ∧
    handle_message st "pause" = pause st ∧
    handle_message st "next_chapter" = skip_next st ∧
    handle_message st "prev_chapter" = skip_prev st ∧
    handle_message st "next_video" = skip_queue st :=
  ⟨rfl, rfl, rfl, rfl, rfl⟩

/-- C10: command recognition is exact-match and case-sensitive: the five
recognized literals are pairwise distinct (so at most one dispatch arm
applies to any message, and the default arm otherwise), every string
outside the five reaches the warning arm with the state unchanged, and
in particular "Play" and "play " (case or whitespace variants) do. -/
theorem ws_dispatch_exact (st : PlaybackState) (s : String)
    (h : s ∉ recognized_commands) :
    recognized_commands.Nodup ∧
    handle_message st s = (st, [Event.warning s!"Unknown data {s}"]) ∧
    handle_message st "Play" = (st, [Event.warning "Unknown data Play"]) ∧
    handle_message st "play " = (st, [Event.warning "Unknown data play "]) := by
  refine ⟨by decide, ?_, rfl, rfl⟩
  simp only [recognized_commands, List.mem_cons, List.mem_singleton,
    not_or] at h
  obtain ⟨h1, h2, h3, h4, h5, _⟩ := h
  simp [handle_message, h1, h2, h3, h4, h5]

/-- Witness for C10: the case variant "PLAY" falls through to the
warning arm. -/
theorem ws_dispatch_exact_witness :
    handle_message ⟨[], none, false⟩ "PLAY" =
      (⟨[], none, false⟩, [Event.warning "Unknown data PLAY"]) :=
  (ws_dispatch_exact ⟨[], none, false⟩ "PLAY" (by decide)).2.1

/-- C9: a set-sink request whose address is the empty string (falsy in
Python) behaves exactly like a request with no address at all: it takes
the unset branch, clears all sink flags and reports the default-sink
message. -/
theorem empty_address_unsets (hw : Bool) (devs : List Device) :
    bluetooth_sink hw devs ⟨some ""⟩ = bluetooth_sink hw devs ⟨none⟩ ∧
    bluetooth_sink true devs ⟨some ""⟩ =
      (.ok "default set as new sink", clear_sinks devs) := by
  have he : str_truthy (some "") = false := by decide
  have hn : str_truthy none = false := rfl
  constructor <;> cases hw <;> simp [bluetooth_sink, unset_sinks, he, hn]
